import Mathlib

/-!
Shallow embedding of the packet normalization and validation pipeline of
meshtastic_data_handler.py (class MeshtasticDataHandler), together with the
storage-dispatch and display-formatting layers, and proofs of the spec
claims about them.

Modelling conventions:
- Python values flowing through the handler are modelled by the inductive
  type PyVal: None, int, float (modelled as rationals, since only exact
  conversion and equality at small literals matter here), str, and dict
  (an association list of string keys in insertion order).
- Python exceptions are modelled by PyErr; fallible operations return
  Except PyErr.
- The wall-clock timestamp datetime.now().isoformat() is an explicit
  parameter now of each normalizer.
- JSON text is modelled abstractly: Wire.json v is the serialization of
  the value v (json.dumps), and Wire.malformed s stands for an arbitrary
  string that is not well-formed JSON. json.loads inverts Wire.json and
  fails with a decode error on Wire.malformed.
- The Redis storage collaborator is modelled by StorageModel, which for
  each write says whether it raises; the writes actually issued by the
  dispatcher are collected in an effect trace (List Effect).
-/

/-- Model of the Python values handled by the data handler. -/
inductive PyVal where
  | pNone : PyVal
  | pInt (n : Int) : PyVal
  | pFloat (q : Rat) : PyVal
  | pStr (s : String) : PyVal
  | pDict (fields : List (String × PyVal)) : PyVal

mutual

/-- Decidable equality for PyVal (hand-rolled: the automatic deriving does
not handle the nested list of fields). -/
def decEqPyVal : (a b : PyVal) → Decidable (a = b)
  | .pNone, .pNone => .isTrue rfl
  | .pInt n, .pInt m =>
      match decEq n m with
      | .isTrue h => .isTrue (by rw [h])
      | .isFalse h => .isFalse (fun c => h (PyVal.pInt.inj c))
  | .pFloat p, .pFloat q =>
      match decEq p q with
      | .isTrue h => .isTrue (by rw [h])
      | .isFalse h => .isFalse (fun c => h (PyVal.pFloat.inj c))
  | .pStr s, .pStr t =>
      match decEq s t with
      | .isTrue h => .isTrue (by rw [h])
      | .isFalse h => .isFalse (fun c => h (PyVal.pStr.inj c))
  | .pDict xs, .pDict ys =>
      match decEqPyFields xs ys with
      | .isTrue h => .isTrue (by rw [h])
      | .isFalse h => .isFalse (fun c => h (PyVal.pDict.inj c))
  | .pNone, .pInt _ => .isFalse (fun h => nomatch h)
  | .pNone, .pFloat _ => .isFalse (fun h => nomatch h)
  | .pNone, .pStr _ => .isFalse (fun h => nomatch h)
  | .pNone, .pDict _ => .isFalse (fun h => nomatch h)
  | .pInt _, .pNone => .isFalse (fun h => nomatch h)
  | .pInt _, .pFloat _ => .isFalse (fun h => nomatch h)
  | .pInt _, .pStr _ => .isFalse (fun h => nomatch h)
  | .pInt _, .pDict _ => .isFalse (fun h => nomatch h)
  | .pFloat _, .pNone => .isFalse (fun h => nomatch h)
  | .pFloat _, .pInt _ => .isFalse (fun h => nomatch h)
  | .pFloat _, .pStr _ => .isFalse (fun h => nomatch h)
  | .pFloat _, .pDict _ => .isFalse (fun h => nomatch h)
  | .pStr _, .pNone => .isFalse (fun h => nomatch h)
  | .pStr _, .pInt _ => .isFalse (fun h => nomatch h)
  | .pStr _, .pFloat _ => .isFalse (fun h => nomatch h)
  | .pStr _, .pDict _ => .isFalse (fun h => nomatch h)
  | .pDict _, .pNone => .isFalse (fun h => nomatch h)
  | .pDict _, .pInt _ => .isFalse (fun h => nomatch h)
  | .pDict _, .pFloat _ => .isFalse (fun h => nomatch h)
  | .pDict _, .pStr _ => .isFalse (fun h => nomatch h)

/-- Decidable equality for PyVal field lists. -/
def decEqPyFields : (xs ys : List (String × PyVal)) → Decidable (xs = ys)
  | [], [] => .isTrue rfl
  | [], _ :: _ => .isFalse (fun h => nomatch h)
  | _ :: _, [] => .isFalse (fun h => nomatch h)
  | (k, v) :: rest, (k2, v2) :: rest2 =>
      match decEq k k2, decEqPyVal v v2, decEqPyFields rest rest2 with
      | .isTrue hk, .isTrue hv, .isTrue hr => .isTrue (by rw [hk, hv, hr])
      | .isFalse hk, _, _ => .isFalse (fun c => by
          injection c with h1 h2
          injection h1 with hk2 hv2
          exact hk hk2)
      | _, .isFalse hv, _ => .isFalse (fun c => by
          injection c with h1 h2
          injection h1 with hk2 hv2
          exact hv hv2)
      | _, _, .isFalse hr => .isFalse (fun c => by
          injection c with h1 h2
          exact hr h2)

end

instance : DecidableEq PyVal := decEqPyVal

/-- Model of the Python exceptions that the handler can raise or catch. -/
inductive PyErr where
  | keyError (k : String) : PyErr
  | typeError : PyErr
  | valueError : PyErr
  | jsonDecodeError : PyErr
  | schemaError : PyErr
deriving DecidableEq

/-- Decidable equality of fallible results, so claims can be settled by
evaluation on concrete packets. -/
instance exceptDecEq {ε α : Type} [DecidableEq ε] [DecidableEq α] :
    DecidableEq (Except ε α)
  | .ok a, .ok b =>
      match decEq a b with
      | .isTrue h => .isTrue (by rw [h])
      | .isFalse h => .isFalse (fun c => h (Except.ok.inj c))
  | .error e, .error f =>
      match decEq e f with
      | .isTrue h => .isTrue (by rw [h])
      | .isFalse h => .isFalse (fun c => h (Except.error.inj c))
  | .ok _, .error _ => .isFalse (fun h => nomatch h)
  | .error _, .ok _ => .isFalse (fun h => nomatch h)

/-- First value bound to a key in an association list, as Python dict lookup
(keys are unique in Python dicts; first match models that). -/
def lookupField : List (String × PyVal) → String → Option PyVal
  | [], _ => none
  | (k, v) :: rest, key => if k = key then some v else lookupField rest key

/-- Python subscription d[k]: KeyError when the key is missing, TypeError
when the value is not a dict. -/
def pyGetItem (v : PyVal) (k : String) : Except PyErr PyVal :=
  match v with
  | .pDict m =>
      match lookupField m k with
      | some x => .ok x
      | none => .error (.keyError k)
  | _ => .error .typeError

/-- Python d.get(k, default): the default when the key is missing, an
error when the receiver is not a dict. -/
def pyDictGet (v : PyVal) (k : String) (dflt : PyVal) : Except PyErr PyVal :=
  match v with
  | .pDict m =>
      match lookupField m k with
      | some x => .ok x
      | none => .ok dflt
  | _ => .error .typeError

/-- Python dict(x): copies a dict, raises TypeError otherwise. -/
def pyToDict (v : PyVal) : Except PyErr (List (String × PyVal)) :=
  match v with
  | .pDict m => .ok m
  | _ => .error .typeError

/-- The numeric value of a decimal digit character. -/
def digitVal (c : Char) : Option Nat :=
  if c = '0' then some 0 else if c = '1' then some 1
  else if c = '2' then some 2 else if c = '3' then some 3
  else if c = '4' then some 4 else if c = '5' then some 5
  else if c = '6' then some 6 else if c = '7' then some 7
  else if c = '8' then some 8 else if c = '9' then some 9
  else none

/-- Accumulate decimal digits; fails on the first non-digit. -/
def parseDigitsAux : List Char → Nat → Option Nat
  | [], acc => some acc
  | c :: rest, acc =>
      match digitVal c with
      | some d => parseDigitsAux rest (acc * 10 + d)
      | none => none

/-- A nonempty run of decimal digits as a natural number. -/
def parseNatChars (cs : List Char) : Option Nat :=
  match cs with
  | [] => none
  | _ => parseDigitsAux cs 0

/-- Core of Python int(s) on strings: an optional minus sign followed by
digits (whitespace, plus signs and underscores are not modelled; no claim
exercises them). -/
def parseIntStr (s : String) : Option Int :=
  match s.data with
  | '-' :: rest => (parseNatChars rest).map (fun n => -(n : Int))
  | cs => (parseNatChars cs).map (fun n => (n : Int))

/-- Unsigned decimal with an optional fractional part: digits, optionally
followed by a dot and more digits. -/
def parseFloatChars (cs : List Char) : Option Rat :=
  let intPart := cs.takeWhile (fun c => c ≠ '.')
  let rest := cs.dropWhile (fun c => c ≠ '.')
  match rest with
  | [] => (parseNatChars intPart).map (fun n => (n : Rat))
  | _ :: frac =>
      if frac.any (fun c => c = '.') then none
      else
        match parseNatChars intPart, parseNatChars frac with
        | some a, some b =>
            some ((a : Rat) + (b : Rat) / ((10 : Rat) ^ frac.length))
        | _, _ => none

/-- Core of Python float(s) on strings: optional minus sign, integer part,
optional fractional part (exponents, special values and bare dots like 3.
or .5 are not modelled; no claim exercises them). -/
def parseFloatStr (s : String) : Option Rat :=
  match s.data with
  | '-' :: rest => (parseFloatChars rest).map (fun q => -q)
  | cs => parseFloatChars cs

/-- Python int(x): identity on ints, truncation toward zero on floats,
lenient parse on strings (ValueError on failure), TypeError otherwise. -/
def pyInt (v : PyVal) : Except PyErr Int :=
  match v with
  | .pInt n => .ok n
  | .pFloat q => .ok (Int.tdiv (Rat.num q) (Rat.den q : Int))
  | .pStr s =>
      match parseIntStr s with
      | some n => .ok n
      | none => .error .valueError
  | _ => .error .typeError

/-- Python float(x): ints widen, floats pass through, strings parse
leniently (ValueError on failure), TypeError otherwise. -/
def pyFloat (v : PyVal) : Except PyErr Rat :=
  match v with
  | .pInt n => .ok (n : Rat)
  | .pFloat q => .ok q
  | .pStr s =>
      match parseFloatStr s with
      | some q => .ok q
      | none => .error .valueError
  | _ => .error .typeError

mutual

/-- Python str(x): identity on strings, a printable rendering otherwise
(always succeeds; the exact rendering of non-string values is a model
approximation and no claim depends on it). -/
def pyStr : PyVal → String
  | .pNone => "None"
  | .pInt n => toString n
  | .pFloat q => toString q
  | .pStr s => s
  | .pDict m => "dict(" ++ pyStrFields m ++ ")"

/-- Rendering of dict fields for pyStr. -/
def pyStrFields : List (String × PyVal) → String
  | [] => ""
  | (k, v) :: rest => k ++ ": " ++ pyStr v ++ "; " ++ pyStrFields rest

end

mutual

/-- Modelled from the spec: shape descriptors for the schema validator of
type_validation.py, which is imported by the handler but absent from the
sources. Per spec section 4.1 a shape is a set of named fields, each
required or optional, with an expected kind: int, float, str, a literal
string (for type discriminators), or a nested shape. -/
inductive FieldTy where
  | tInt : FieldTy
  | tFloat : FieldTy
  | tStr : FieldTy
  | tLit (s : String) : FieldTy
  | tDict (fs : FieldSpec) : FieldTy

/-- Modelled from the spec: the field list of a shape descriptor; each
entry is a field name, a required flag, and the expected field kind. -/
inductive FieldSpec where
  | nil : FieldSpec
  | cons (name : String) (required : Bool) (ty : FieldTy) (rest : FieldSpec) : FieldSpec

end

mutual

/-- Modelled from the spec: does a value match a field kind. Literal kinds
accept exactly the literal string; nested shapes recurse. -/
def validateTy : FieldTy → PyVal → Bool
  | .tInt, .pInt _ => true
  | .tInt, _ => false
  | .tFloat, .pFloat _ => true
  | .tFloat, _ => false
  | .tStr, .pStr _ => true
  | .tStr, _ => false
  | .tLit s, v => decide (v = .pStr s)
  | .tDict fs, .pDict m => validateFields fs m
  | .tDict _, _ => false

/-- Modelled from the spec: check each declared field against a dict.
A required field must be present and match its kind; an optional field may
be absent or None, and must match its kind when present and non-None. -/
def validateFields : FieldSpec → List (String × PyVal) → Bool
  | .nil, _ => true
  | .cons name req ty rest, m =>
      (match lookupField m name with
       | none => !req
       | some v => validateTy ty v || (!req && decide (v = PyVal.pNone))) &&
      validateFields rest m

end

/-- Modelled from the spec: validate_typed_dict of type_validation.py
(absent from the sources). Checks a candidate record against a shape and
raises a schema validation error on mismatch, per spec section 4.1 (the
error also names the offending field in the spec; the model keeps only the
error kind). -/
def validate_typed_dict (v : PyVal) (shape : FieldTy) : Except PyErr Unit :=
  if validateTy shape v then .ok () else .error .schemaError

/-- Modelled from the spec: UserInfo shape of meshtastic_types.py (absent
from the sources); all six fields are required strings (spec section 3). -/
def UserInfoShape : FieldSpec :=
  .cons "id" true .tStr
    (.cons "long_name" true .tStr
      (.cons "short_name" true .tStr
        (.cons "macaddr" true .tStr
          (.cons "hw_model" true .tStr
            (.cons "raw" true .tStr .nil)))))

/-- Modelled from the spec: the generic Metrics shape of
meshtastic_types.py (absent from the sources): rx_time required int,
rx_snr optional float, rx_rssi optional int, hop_limit int
(spec section 3). -/
def MetricsShape : FieldSpec :=
  .cons "rx_time" true .tInt
    (.cons "rx_snr" false .tFloat
      (.cons "rx_rssi" false .tInt
        (.cons "hop_limit" true .tInt .nil)))

/-- Modelled from the spec: the embedded metrics shape used inside
NodeInfo and TextMessage records, where rx_snr and rx_rssi are concrete
(defaulted to 0 rather than left optional, spec section 3). -/
def EmbeddedMetricsShape : FieldSpec :=
  .cons "rx_time" true .tInt
    (.cons "rx_snr" true .tFloat
      (.cons "rx_rssi" true .tInt
        (.cons "hop_limit" true .tInt .nil)))

/-- Modelled from the spec: NodeInfo shape of meshtastic_types.py (absent
from the sources), spec section 3. -/
def NodeInfoShape : FieldTy :=
  .tDict
    (.cons "type" true (.tLit "nodeinfo")
      (.cons "timestamp" true .tStr
        (.cons "from_num" true .tInt
          (.cons "from_id" true .tStr
            (.cons "user" true (.tDict UserInfoShape)
              (.cons "metrics" true (.tDict EmbeddedMetricsShape)
                (.cons "raw" true .tStr .nil)))))))

/-- Modelled from the spec: TextMessage shape of meshtastic_types.py
(absent from the sources), spec section 3. -/
def TextMessageShape : FieldTy :=
  .tDict
    (.cons "type" true (.tLit "text")
      (.cons "timestamp" true .tStr
        (.cons "from_num" true .tInt
          (.cons "from_id" true .tStr
            (.cons "to_num" true .tInt
              (.cons "to_id" true .tStr
                (.cons "text" true .tStr
                  (.cons "metrics" true (.tDict EmbeddedMetricsShape)
                    (.cons "raw" true .tStr .nil)))))))))

/-- Modelled from the spec: the device_metrics shape nested in
DeviceTelemetry (spec section 3); all five fields required. -/
def DeviceMetricsShape : FieldSpec :=
  .cons "battery_level" true .tInt
    (.cons "voltage" true .tFloat
      (.cons "channel_utilization" true .tFloat
        (.cons "air_util_tx" true .tFloat
          (.cons "uptime_seconds" true .tInt .nil))))

/-- Modelled from the spec: DeviceTelemetry shape of meshtastic_types.py
(absent from the sources), spec section 3; its metrics field uses the
generic optional-field Metrics shape. -/
def DeviceTelemetryShape : FieldTy :=
  .tDict
    (.cons "type" true (.tLit "device_telemetry")
      (.cons "timestamp" true .tStr
        (.cons "from_num" true .tInt
          (.cons "from_id" true .tStr
            (.cons "device_metrics" true (.tDict DeviceMetricsShape)
              (.cons "metrics" true (.tDict MetricsShape)
                (.cons "raw" true .tStr .nil)))))))

/-- Embedding of MeshtasticDataHandler._extract_metrics (lines 47 to 62):
rxTime by subscription (KeyError when absent), rxSnr and rxRssi by .get
with default None, hopLimit by .get with default 3; the looked-up values
are placed in the Metrics dict verbatim, with no numeric coercion. -/
def extract_metrics (packet : PyVal) : Except PyErr PyVal := do
  let rxTimeV ← pyGetItem packet "rxTime"
  let rxSnrV ← pyDictGet packet "rxSnr" PyVal.pNone
  let rxRssiV ← pyDictGet packet "rxRssi" PyVal.pNone
  let hopLimitV ← pyDictGet packet "hopLimit" (PyVal.pInt 3)
  pure (PyVal.pDict
    [("rx_time", rxTimeV),
     ("rx_snr", rxSnrV),
     ("rx_rssi", rxRssiV),
     ("hop_limit", hopLimitV)])

/-- Embedding of the record construction in
MeshtasticDataHandler._process_nodeinfo (lines 67 to 90), in source
evaluation order: first user_info = dict(packet[decoded][user]), then the
dict literal fields left to right; str is total, int and float raise on
unconvertible values, subscription raises KeyError on missing keys, .get
supplies the defaults 0 and 3. -/
def build_nodeinfo (now : String) (packet : PyVal) : Except PyErr PyVal := do
  let decoded ← pyGetItem packet "decoded"
  let userRaw ← pyGetItem decoded "user"
  let user_info ← pyToDict userRaw
  let fromV ← pyGetItem packet "from"
  let from_num ← pyInt fromV
  let fromIdV ← pyGetItem packet "fromId"
  let uidV ← pyGetItem (PyVal.pDict user_info) "id"
  let longNameV ← pyGetItem (PyVal.pDict user_info) "longName"
  let shortNameV ← pyGetItem (PyVal.pDict user_info) "shortName"
  let macaddrV ← pyGetItem (PyVal.pDict user_info) "macaddr"
  let hwModelV ← pyGetItem (PyVal.pDict user_info) "hwModel"
  let uRawV ← pyGetItem (PyVal.pDict user_info) "raw"
  let rxTimeV ← pyGetItem packet "rxTime"
  let rx_time ← pyInt rxTimeV
  let rxSnrV ← pyDictGet packet "rxSnr" (PyVal.pInt 0)
  let rx_snr ← pyFloat rxSnrV
  let rxRssiV ← pyDictGet packet "rxRssi" (PyVal.pInt 0)
  let rx_rssi ← pyInt rxRssiV
  let hopLimitV ← pyDictGet packet "hopLimit" (PyVal.pInt 3)
  let hop_limit ← pyInt hopLimitV
  let rawV ← pyGetItem packet "raw"
  pure (PyVal.pDict
    [("type", .pStr "nodeinfo"),
     ("timestamp", .pStr now),
     ("from_num", .pInt from_num),
     ("from_id", .pStr (pyStr fromIdV)),
     ("user", .pDict
       [("id", .pStr (pyStr uidV)),
        ("long_name", .pStr (pyStr longNameV)),
        ("short_name", .pStr (pyStr shortNameV)),
        ("macaddr", .pStr (pyStr macaddrV)),
        ("hw_model", .pStr (pyStr hwModelV)),
        ("raw", .pStr (pyStr uRawV))]),
     ("metrics", .pDict
       [("rx_time", .pInt rx_time),
        ("rx_snr", .pFloat rx_snr),
        ("rx_rssi", .pInt rx_rssi),
        ("hop_limit", .pInt hop_limit)]),
     ("raw", .pStr (pyStr rawV))])

/-- Embedding of MeshtasticDataHandler._process_nodeinfo (lines 65 to
103): build the candidate record, validate it against the NodeInfo shape,
return it; the except clauses log and re-raise, so errors propagate
unchanged. -/
def process_nodeinfo (now : String) (packet : PyVal) : Except PyErr PyVal := do
  let node_info ← build_nodeinfo now packet
  let _ ← validate_typed_dict node_info NodeInfoShape
  pure node_info

/-- Embedding of the record construction in
MeshtasticDataHandler._process_textmessage (lines 116 to 131), in source
evaluation order. -/
def build_textmessage (now : String) (packet : PyVal) : Except PyErr PyVal := do
  let fromV ← pyGetItem packet "from"
  let from_num ← pyInt fromV
  let fromIdV ← pyGetItem packet "fromId"
  let toV ← pyGetItem packet "to"
  let to_num ← pyInt toV
  let toIdV ← pyGetItem packet "toId"
  let decoded ← pyGetItem packet "decoded"
  let textV ← pyGetItem decoded "text"
  let rxTimeV ← pyGetItem packet "rxTime"
  let rx_time ← pyInt rxTimeV
  let rxSnrV ← pyDictGet packet "rxSnr" (PyVal.pInt 0)
  let rx_snr ← pyFloat rxSnrV
  let rxRssiV ← pyDictGet packet "rxRssi" (PyVal.pInt 0)
  let rx_rssi ← pyInt rxRssiV
  let hopLimitV ← pyDictGet packet "hopLimit" (PyVal.pInt 3)
  let hop_limit ← pyInt hopLimitV
  let rawV ← pyGetItem packet "raw"
  pure (PyVal.pDict
    [("type", .pStr "text"),
     ("timestamp", .pStr now),
     ("from_num", .pInt from_num),
     ("from_id", .pStr (pyStr fromIdV)),
     ("to_num", .pInt to_num),
     ("to_id", .pStr (pyStr toIdV)),
     ("text", .pStr (pyStr textV)),
     ("metrics", .pDict
       [("rx_time", .pInt rx_time),
        ("rx_snr", .pFloat rx_snr),
        ("rx_rssi", .pInt rx_rssi),
        ("hop_limit", .pInt hop_limit)]),
     ("raw", .pStr (pyStr rawV))])

/-- Embedding of MeshtasticDataHandler._process_textmessage (lines 105 to
141): build the candidate record, validate it against the TextMessage
shape, return it; the except clause logs and re-raises. -/
def process_textmessage (now : String) (packet : PyVal) : Except PyErr PyVal := do
  let text_message ← build_textmessage now packet
  let _ ← validate_typed_dict text_message TextMessageShape
  pure text_message

/-- Embedding of the record construction in
MeshtasticDataHandler._process_device_telemetry (lines 148 to 163), in
source evaluation order; each device metric repeats the deviceMetrics
subscription as the source does, and channelUtilization defaults to the
float 0.0 via .get. -/
def build_device_telemetry (now : String) (packet : PyVal) : Except PyErr PyVal := do
  let decoded ← pyGetItem packet "decoded"
  let telemetry ← pyGetItem decoded "telemetry"
  let fromV ← pyGetItem packet "from"
  let from_num ← pyInt fromV
  let fromIdV ← pyGetItem packet "fromId"
  let dm1 ← pyGetItem telemetry "deviceMetrics"
  let blV ← pyGetItem dm1 "batteryLevel"
  let battery_level ← pyInt blV
  let dm2 ← pyGetItem telemetry "deviceMetrics"
  let vV ← pyGetItem dm2 "voltage"
  let voltage ← pyFloat vV
  let dm3 ← pyGetItem telemetry "deviceMetrics"
  let cuV ← pyDictGet dm3 "channelUtilization" (PyVal.pFloat 0)
  let channel_utilization ← pyFloat cuV
  let dm4 ← pyGetItem telemetry "deviceMetrics"
  let auV ← pyGetItem dm4 "airUtilTx"
  let air_util_tx ← pyFloat auV
  let dm5 ← pyGetItem telemetry "deviceMetrics"
  let usV ← pyGetItem dm5 "uptimeSeconds"
  let uptime_seconds ← pyInt usV
  let mets ← extract_metrics packet
  let rawV ← pyGetItem packet "raw"
  pure (PyVal.pDict
    [("type", .pStr "device_telemetry"),
     ("timestamp", .pStr now),
     ("from_num", .pInt from_num),
     ("from_id", .pStr (pyStr fromIdV)),
     ("device_metrics", .pDict
       [("battery_level", .pInt battery_level),
        ("voltage", .pFloat voltage),
        ("channel_utilization", .pFloat channel_utilization),
        ("air_util_tx", .pFloat air_util_tx),
        ("uptime_seconds", .pInt uptime_seconds)]),
     ("metrics", mets),
     ("raw", .pStr (pyStr rawV))])

/-- Embedding of MeshtasticDataHandler._process_device_telemetry (lines
143 to 172): build the candidate record, validate it against the
DeviceTelemetry shape, return it; the except clause logs and re-raises. -/
def process_device_telemetry (now : String) (packet : PyVal) : Except PyErr PyVal := do
  let device_telemetry ← build_device_telemetry now packet
  let _ ← validate_typed_dict device_telemetry DeviceTelemetryShape
  pure device_telemetry

/-- Abstract model of JSON text: a well-formed serialization of a value
(json.dumps output) or an arbitrary malformed string. -/
inductive Wire where
  | json (v : PyVal) : Wire
  | malformed (s : String) : Wire
deriving DecidableEq

/-- json.dumps on the records built here: total, modelled as the
constructor of the abstract wire type. -/
def jsonDumps (v : PyVal) : Wire :=
  Wire.json v

/-- json.loads: recovers the serialized value, raises a JSONDecodeError on
malformed text. -/
def jsonLoads (w : Wire) : Except PyErr PyVal :=
  match w with
  | .json v => .ok v
  | .malformed _ => .error .jsonDecodeError

/-- A storage write issued to the Redis collaborator: store_node or
store_message, with the serialized record passed to it. -/
inductive Effect where
  | storeNode (w : Wire) : Effect
  | storeMessage (w : Wire) : Effect
deriving DecidableEq

/-- Behaviour of the Redis storage collaborator: for each write, none
means the awaited call returns normally, some e means it raises e. -/
structure StorageModel where
  nodeErr : Wire → Option PyErr
  msgErr : Wire → Option PyErr

/-- The logging reads process_packet performs after storing a node record
(lines 191 to 195): subscriptions on the processed record used to build
the log strings; their errors would propagate to the try of
process_packet. -/
def nodeLogReads (r : PyVal) : Except PyErr Unit := do
  let _ ← pyGetItem r "from_id"
  let _ ← pyGetItem r "timestamp"
  let _ ← pyGetItem r "from_id"
  let u ← pyGetItem r "user"
  let _ ← pyGetItem u "long_name"
  pure ()

/-- The logging reads process_packet performs after storing a text message
(lines 200 to 204). -/
def msgLogReads (r : PyVal) : Except PyErr Unit := do
  let _ ← pyGetItem r "from_id"
  let _ ← pyGetItem r "timestamp"
  let _ ← pyGetItem r "from_id"
  let _ ← pyGetItem r "to_id"
  let _ ← pyGetItem r "text"
  pure ()

/-- Attach an already-issued effect trace to a residual fallible
computation whose own value is discarded. -/
def afterEffects (effs : List Effect) : Except PyErr Unit → List Effect × Option PyErr
  | .ok _ => (effs, none)
  | .error e => (effs, some e)

/-- The discriminator read of process_packet, line 187: the authoritative
portnum under the decoded key of the raw packet. -/
def read_portnum (packet : PyVal) : Except PyErr PyVal := do
  let decoded ← pyGetItem packet "decoded"
  pyGetItem decoded "portnum"

/-- Embedding of the try-block body of MeshtasticDataHandler.process_packet
(lines 184 to 207): read the portnum discriminator, route NODEINFO_APP to
the nodeinfo normalizer and store_node, TEXT_MESSAGE_APP to the text
normalizer and store_message, log-and-skip anything else. The result is
the trace of storage writes actually issued together with the exception,
if any, that reaches the except clause. The packet_type hint plays no role
in the body other than logging. -/
def process_packet_body (S : StorageModel) (now : String) (packet : PyVal) :
    List Effect × Option PyErr :=
  match read_portnum packet with
  | .error e => ([], some e)
  | .ok portnum =>
    if portnum = PyVal.pStr "NODEINFO_APP" then
      match process_nodeinfo now packet with
      | .error e => ([], some e)
      | .ok r =>
          let w := jsonDumps r
          match S.nodeErr w with
          | some e => ([Effect.storeNode w], some e)
          | none => afterEffects [Effect.storeNode w] (nodeLogReads r)
    else if portnum = PyVal.pStr "TEXT_MESSAGE_APP" then
      match process_textmessage now packet with
      | .error e => ([], some e)
      | .ok r =>
          let w := jsonDumps r
          match S.msgErr w with
          | some e => ([Effect.storeMessage w], some e)
          | none => afterEffects [Effect.storeMessage w] (msgLogReads r)
    else
      ([], none)

/-- Embedding of MeshtasticDataHandler.process_packet (lines 175 to 210):
the try-block body runs under an except clause catching every exception,
which logs it and falls off the end of the function, so the call always
returns normally with the trace of writes that were issued. The
packet_type argument is used only in log strings. -/
def process_packet (S : StorageModel) (now : String) (packet : PyVal)
    (packet_type : String) : Except PyErr (List Effect) :=
  match process_packet_body S now packet with
  | (effs, some _) => .ok effs
  | (effs, none) => .ok effs

/-- Embedding of MeshtasticDataHandler.format_message_for_display, try
body (lines 216 to 222): parse the JSON text and project the four display
fields by subscription. -/
def format_message_body (w : Wire) : Except PyErr PyVal := do
  let data ← jsonLoads w
  let ts ← pyGetItem data "timestamp"
  let fr ← pyGetItem data "from_id"
  let toV ← pyGetItem data "to_id"
  let tx ← pyGetItem data "text"
  pure (PyVal.pDict
    [("timestamp", ts), ("from", fr), ("to", toV), ("text", tx)])

/-- Embedding of MeshtasticDataHandler.format_message_for_display (lines
213 to 225): only json.JSONDecodeError is caught (logged, returns None);
any other exception propagates to the caller. -/
def format_message_for_display (w : Wire) : Except PyErr (Option PyVal) :=
  match format_message_body w with
  | .ok proj => .ok (some proj)
  | .error .jsonDecodeError => .ok none
  | .error e => .error e

/-- Embedding of MeshtasticDataHandler.format_node_for_display, try body
(lines 229 to 235): parse the JSON text and project timestamp, id and the
nested user long name. -/
def format_node_body (w : Wire) : Except PyErr PyVal := do
  let data ← jsonLoads w
  let ts ← pyGetItem data "timestamp"
  let idV ← pyGetItem data "from_id"
  let u ← pyGetItem data "user"
  let nm ← pyGetItem u "long_name"
  pure (PyVal.pDict
    [("timestamp", ts), ("id", idV), ("name", nm)])

/-- Embedding of MeshtasticDataHandler.format_node_for_display (lines 227
to 238): only json.JSONDecodeError is caught (logged, returns None); any
other exception propagates. -/
def format_node_for_display (w : Wire) : Except PyErr (Option PyVal) :=
  match format_node_body w with
  | .ok proj => .ok (some proj)
  | .error .jsonDecodeError => .ok none
  | .error e => .error e

/-- Embedding of the loop of MeshtasticDataHandler.get_formatted_messages
(lines 246 to 252) over the serialized messages returned by the storage
collaborator: formatted items are collected in order, None results are
skipped, and an uncaught exception from the formatter propagates out of
the loop (there is no try in this function). -/
def get_formatted_messages : List Wire → Except PyErr (List PyVal)
  | [] => .ok []
  | w :: rest => do
      let fm ← format_message_for_display w
      let tail ← get_formatted_messages rest
      match fm with
      | some proj => pure (proj :: tail)
      | none => pure tail

/-- Embedding of the loop of MeshtasticDataHandler.get_formatted_nodes
(lines 260 to 266), analogous to get_formatted_messages. -/
def get_formatted_nodes : List Wire → Except PyErr (List PyVal)
  | [] => .ok []
  | w :: rest => do
      let fn ← format_node_for_display w
      let tail ← get_formatted_nodes rest
      match fn with
      | some proj => pure (proj :: tail)
      | none => pure tail

/-- A sample raw NODEINFO_APP packet with every required field present and
the optional rxSnr, rxRssi and hopLimit absent. -/
def samplePacketNode : PyVal := .pDict
  [("from", .pInt 1), ("fromId", .pStr "!a1"), ("rxTime", .pInt 100),
   ("raw", .pStr "rawnode"),
   ("decoded", .pDict
     [("portnum", .pStr "NODEINFO_APP"),
      ("user", .pDict
        [("id", .pStr "!a1"), ("longName", .pStr "Alpha"),
         ("shortName", .pStr "A"), ("macaddr", .pStr "00:11"),
         ("hwModel", .pStr "TBEAM"), ("raw", .pStr "uraw")])])]

/-- The NodeInfo record the normalizer builds from samplePacketNode at
timestamp T. -/
def sampleNodeRecord : PyVal := .pDict
  [("type", .pStr "nodeinfo"),
   ("timestamp", .pStr "T"),
   ("from_num", .pInt 1),
   ("from_id", .pStr "!a1"),
   ("user", .pDict
     [("id", .pStr "!a1"), ("long_name", .pStr "Alpha"),
      ("short_name", .pStr "A"), ("macaddr", .pStr "00:11"),
      ("hw_model", .pStr "TBEAM"), ("raw", .pStr "uraw")]),
   ("metrics", .pDict
     [("rx_time", .pInt 100), ("rx_snr", .pFloat 0),
      ("rx_rssi", .pInt 0), ("hop_limit", .pInt 3)]),
   ("raw", .pStr "rawnode")]

/-- A sample raw TEXT_MESSAGE_APP packet with every required field present
and the optional rxSnr, rxRssi and hopLimit absent. -/
def samplePacketText : PyVal := .pDict
  [("from", .pInt 1), ("fromId", .pStr "!a1"), ("to", .pInt 2),
   ("toId", .pStr "!b2"), ("rxTime", .pInt 100), ("raw", .pStr "rawmsg"),
   ("decoded", .pDict
     [("portnum", .pStr "TEXT_MESSAGE_APP"), ("text", .pStr "hi")])]

/-- The TextMessage record the normalizer builds from samplePacketText at
timestamp T. -/
def sampleTextRecord : PyVal := .pDict
  [("type", .pStr "text"),
   ("timestamp", .pStr "T"),
   ("from_num", .pInt 1),
   ("from_id", .pStr "!a1"),
   ("to_num", .pInt 2),
   ("to_id", .pStr "!b2"),
   ("text", .pStr "hi"),
   ("metrics", .pDict
     [("rx_time", .pInt 100), ("rx_snr", .pFloat 0),
      ("rx_rssi", .pInt 0), ("hop_limit", .pInt 3)]),
   ("raw", .pStr "rawmsg")]

/-- A storage collaborator whose writes always return normally. -/
def okStorage : StorageModel :=
  { nodeErr := fun _ => none, msgErr := fun _ => none }

/-- A storage write carries a schema-validated record: node writes carry a
record accepted by the NodeInfo shape, message writes one accepted by the
TextMessage shape. -/
def effectValidated : Effect → Bool
  | .storeNode (Wire.json r) =>
      decide (validate_typed_dict r NodeInfoShape = Except.ok ())
  | .storeNode (Wire.malformed _) => false
  | .storeMessage (Wire.json r) =>
      decide (validate_typed_dict r TextMessageShape = Except.ok ())
  | .storeMessage (Wire.malformed _) => false

/-- A sample raw NODEINFO_APP packet whose decoded.user lacks longName. -/
def samplePacketNoLong : PyVal := .pDict
  [("from", .pInt 1), ("fromId", .pStr "!a1"), ("rxTime", .pInt 100),
   ("raw", .pStr "rawnode"),
   ("decoded", .pDict
     [("portnum", .pStr "NODEINFO_APP"),
      ("user", .pDict [("id", .pStr "!a1")])])]

/-- A sample raw packet whose discriminator is WAYPOINT_APP, which the
dispatcher does not recognize. -/
def samplePacketWaypoint : PyVal := .pDict
  [("from", .pInt 1), ("fromId", .pStr "!a1"), ("rxTime", .pInt 100),
   ("raw", .pStr "rawwp"),
   ("decoded", .pDict [("portnum", .pStr "WAYPOINT_APP")])]

/-- A sample raw TEXT_MESSAGE_APP packet whose fromId is the integer 5
rather than a string. -/
def samplePacketTextIntId : PyVal := .pDict
  [("from", .pInt 1), ("fromId", .pInt 5), ("to", .pInt 2),
   ("toId", .pStr "!b2"), ("rxTime", .pInt 100), ("raw", .pStr "rawmsg"),
   ("decoded", .pDict
     [("portnum", .pStr "TEXT_MESSAGE_APP"), ("text", .pStr "hi")])]

/-- The TextMessage record built from samplePacketTextIntId: its from_id
is the string rendering of the integer fromId. -/
def sampleTextRecordIntId : PyVal := .pDict
  [("type", .pStr "text"),
   ("timestamp", .pStr "T"),
   ("from_num", .pInt 1),
   ("from_id", .pStr "5"),
   ("to_num", .pInt 2),
   ("to_id", .pStr "!b2"),
   ("text", .pStr "hi"),
   ("metrics", .pDict
     [("rx_time", .pInt 100), ("rx_snr", .pFloat 0),
      ("rx_rssi", .pInt 0), ("hop_limit", .pInt 3)]),
   ("raw", .pStr "rawmsg")]

/-- A sample raw telemetry packet whose from, batteryLevel and voltage
fields are numeric strings. -/
def samplePacketTelemetry : PyVal := .pDict
  [("from", .pStr "7"), ("fromId", .pStr "!c3"), ("rxTime", .pInt 100),
   ("raw", .pStr "rawtel"),
   ("decoded", .pDict
     [("portnum", .pStr "TELEMETRY_APP"),
      ("telemetry", .pDict
        [("deviceMetrics", .pDict
          [("batteryLevel", .pStr "87"), ("voltage", .pStr "4"),
           ("airUtilTx", .pFloat 1), ("uptimeSeconds", .pInt 1000)])])])]

/-- The DeviceTelemetry record built from samplePacketTelemetry: the
numeric strings were coerced by int and float, channel_utilization was
defaulted to 0.0, and the generic metrics left rx_snr and rx_rssi
absent. -/
def sampleTelemetryRecord : PyVal := .pDict
  [("type", .pStr "device_telemetry"),
   ("timestamp", .pStr "T"),
   ("from_num", .pInt 7),
   ("from_id", .pStr "!c3"),
   ("device_metrics", .pDict
     [("battery_level", .pInt 87), ("voltage", .pFloat 4),
      ("channel_utilization", .pFloat 0), ("air_util_tx", .pFloat 1),
      ("uptime_seconds", .pInt 1000)]),
   ("metrics", .pDict
     [("rx_time", .pInt 100), ("rx_snr", .pNone), ("rx_rssi", .pNone),
      ("hop_limit", .pInt 3)]),
   ("raw", .pStr "rawtel")]

/-- A sample TEXT_MESSAGE_APP packet whose from field is the numeric
string 5. -/
def samplePacketTextStrFrom : PyVal := .pDict
  [("from", .pStr "5"), ("fromId", .pStr "!a1"), ("to", .pInt 2),
   ("toId", .pStr "!b2"), ("rxTime", .pInt 100), ("raw", .pStr "rawmsg"),
   ("decoded", .pDict
     [("portnum", .pStr "TEXT_MESSAGE_APP"), ("text", .pStr "hi")])]

/-- The TextMessage record built from samplePacketTextStrFrom: the string
from value was coerced to the integer 5. -/
def sampleTextRecordStrFrom : PyVal := .pDict
  [("type", .pStr "text"),
   ("timestamp", .pStr "T"),
   ("from_num", .pInt 5),
   ("from_id", .pStr "!a1"),
   ("to_num", .pInt 2),
   ("to_id", .pStr "!b2"),
   ("text", .pStr "hi"),
   ("metrics", .pDict
     [("rx_time", .pInt 100), ("rx_snr", .pFloat 0),
      ("rx_rssi", .pInt 0), ("hop_limit", .pInt 3)]),
   ("raw", .pStr "rawmsg")]

/-- Inversion of a successful monadic bind in the error monad: the first
stage succeeded and the continuation succeeded on its value. -/
@[simp] theorem bind_ok_iff {ε α β : Type} {x : Except ε α} {f : α → Except ε β} {b : β} :
    (x >>= f = Except.ok b) ↔ ∃ a, x = Except.ok a ∧ f a = Except.ok b := by
  cases x <;> simp [Bind.bind, Except.bind]

/-- A pure stage succeeds with exactly its value. -/
@[simp] theorem pure_ok_iff {ε α : Type} {a b : α} :
    ((pure a : Except ε α) = Except.ok b) ↔ a = b := by
  constructor
  · intro h
    exact Except.ok.inj h
  · intro h
    rw [h]
    rfl

/-- C1: for every raw packet and every packet_type hint, process_packet
returns normally and never propagates an exception: whatever the
discriminator read, the normalizers or the storage writes do, including
raising, the except clause at the dispatcher boundary swallows the error
and the call produces a result. -/
theorem process_packet_never_raises (S : StorageModel) (now : String)
    (packet : PyVal) (packet_type : String) :
    ∃ effs, process_packet S now packet packet_type = Except.ok effs := by
  cases h : process_packet_body S now packet with
  | mk effs err =>
    cases err with
    | none => exact ⟨effs, by unfold process_packet; rw [h]⟩
    | some e => exact ⟨effs, by unfold process_packet; rw [h]⟩

/-- C3: extract_metrics on a packet holding rxTime and lacking rxSnr,
rxRssi and hopLimit yields rx_time bound to the rxTime value, rx_snr and
rx_rssi absent (Python None), and hop_limit defaulted to 3; in particular
on the packet with rxTime 100 it yields exactly that record; and a packet
lacking rxTime raises a KeyError, rxTime being the one hard-required
field. -/
theorem extract_metrics_defaulting :
    (∀ (m : List (String × PyVal)) (v : PyVal),
      lookupField m "rxTime" = some v →
      lookupField m "rxSnr" = none →
      lookupField m "rxRssi" = none →
      lookupField m "hopLimit" = none →
      extract_metrics (.pDict m) = Except.ok (.pDict
        [("rx_time", v), ("rx_snr", .pNone), ("rx_rssi", .pNone),
         ("hop_limit", .pInt 3)])) ∧
    extract_metrics (.pDict [("rxTime", .pInt 100)]) = Except.ok (.pDict
      [("rx_time", .pInt 100), ("rx_snr", .pNone), ("rx_rssi", .pNone),
       ("hop_limit", .pInt 3)]) ∧
    (∀ m : List (String × PyVal),
      lookupField m "rxTime" = none →
      extract_metrics (.pDict m) = Except.error (.keyError "rxTime")) := by
  refine ⟨?_, by decide, ?_⟩
  · intro m v h1 h2 h3 h4
    simp [extract_metrics, pyGetItem, pyDictGet, h1, h2, h3, h4]
  · intro m h1
    simp [extract_metrics, pyGetItem, h1, Bind.bind, Except.bind]

/-- Witness for C3 at concrete inputs: the defaulting law at the packet
with rxTime 100 and the KeyError law at the empty packet. -/
theorem extract_metrics_defaulting_witness :
    extract_metrics (.pDict [("rxTime", .pInt 100)]) = Except.ok (.pDict
      [("rx_time", .pInt 100), ("rx_snr", .pNone), ("rx_rssi", .pNone),
       ("hop_limit", .pInt 3)]) ∧
    extract_metrics (.pDict []) = Except.error (.keyError "rxTime") :=
  ⟨extract_metrics_defaulting.1 [("rxTime", .pInt 100)] (.pInt 100)
      rfl rfl rfl rfl,
   extract_metrics_defaulting.2.2 [] rfl⟩

/-- C9: a string that is not well-formed JSON makes json.loads raise the
decode error both formatters catch, so each returns None rather than
raising. -/
theorem malformed_json_formatters_absent (s : String) :
    format_message_for_display (Wire.malformed s) = Except.ok none ∧
    format_node_for_display (Wire.malformed s) = Except.ok none :=
  ⟨rfl, rfl⟩

/-- C10: the formatters catch only JSON-decoding failures, so well-formed
JSON lacking a required display field makes the subscription raise a
KeyError that passes the except clause untouched and propagates out of
get_formatted_messages and get_formatted_nodes, which have no handler: a
message record holding only a timestamp loses from_id, a node record
holding a user without long_name loses the nested name. -/
theorem formatter_keyerror_propagates :
    format_message_for_display
        (Wire.json (.pDict [("timestamp", .pStr "t")])) =
      Except.error (.keyError "from_id") ∧
    get_formatted_messages
        [Wire.json (.pDict [("timestamp", .pStr "t")])] =
      Except.error (.keyError "from_id") ∧
    format_node_for_display
        (Wire.json (.pDict
          [("timestamp", .pStr "t"), ("from_id", .pStr "!a1"),
           ("user", .pDict [("id", .pStr "!a1")])])) =
      Except.error (.keyError "long_name") ∧
    get_formatted_nodes
        [Wire.json (.pDict
          [("timestamp", .pStr "t"), ("from_id", .pStr "!a1"),
           ("user", .pDict [("id", .pStr "!a1")])])] =
      Except.error (.keyError "long_name") := by
  refine ⟨by decide, by decide, by decide, by decide⟩

/-- A successful run of the nodeinfo normalizer has validated exactly the
record it returns: the final pure returns the candidate only after the
validation stage succeeded on it. -/
theorem process_nodeinfo_ok_validated {now : String} {packet r : PyVal}
    (h : process_nodeinfo now packet = Except.ok r) :
    validate_typed_dict r NodeInfoShape = Except.ok () := by
  unfold process_nodeinfo at h
  simp only [bind_ok_iff] at h
  obtain ⟨c, hb, hv⟩ := h
  simp only [bind_ok_iff, pure_ok_iff] at hv
  obtain ⟨u, hval, hr⟩ := hv
  cases u
  subst hr
  exact hval

/-- A successful run of the text message normalizer has validated exactly
the record it returns. -/
theorem process_textmessage_ok_validated {now : String} {packet r : PyVal}
    (h : process_textmessage now packet = Except.ok r) :
    validate_typed_dict r TextMessageShape = Except.ok () := by
  unfold process_textmessage at h
  simp only [bind_ok_iff] at h
  obtain ⟨c, hb, hv⟩ := h
  simp only [bind_ok_iff, pure_ok_iff] at hv
  obtain ⟨u, hval, hr⟩ := hv
  cases u
  subst hr
  exact hval

/-- Dispatcher body when the discriminator read itself raises: no write is
issued and the error reaches the except clause. -/
theorem body_portnum_error (S : StorageModel) (now : String)
    {packet : PyVal} {e : PyErr} (h : read_portnum packet = Except.error e) :
    process_packet_body S now packet = ([], some e) := by
  unfold process_packet_body
  rw [h]

/-- Dispatcher body on an unrecognized discriminator: no write, no
error. -/
theorem body_unknown (S : StorageModel) (now : String)
    {packet v : PyVal} (h : read_portnum packet = Except.ok v)
    (h1 : v ≠ PyVal.pStr "NODEINFO_APP")
    (h2 : v ≠ PyVal.pStr "TEXT_MESSAGE_APP") :
    process_packet_body S now packet = ([], none) := by
  unfold process_packet_body
  rw [h]
  simp [h1, h2]

/-- Dispatcher body when the nodeinfo normalizer raises: no write is
issued and the error reaches the except clause. -/
theorem body_node_error (S : StorageModel) (now : String)
    {packet : PyVal} {e : PyErr}
    (h : read_portnum packet = Except.ok (PyVal.pStr "NODEINFO_APP"))
    (h2 : process_nodeinfo now packet = Except.error e) :
    process_packet_body S now packet = ([], some e) := by
  unfold process_packet_body
  rw [h]
  simp [h2]

/-- Dispatcher body when the nodeinfo normalizer succeeds: exactly one
store_node write of the serialized record is issued, whatever the storage
collaborator or the subsequent log reads do. -/
theorem body_node_ok (S : StorageModel) (now : String)
    {packet r : PyVal}
    (h : read_portnum packet = Except.ok (PyVal.pStr "NODEINFO_APP"))
    (h2 : process_nodeinfo now packet = Except.ok r) :
    ∃ err, process_packet_body S now packet =
      ([Effect.storeNode (Wire.json r)], err) := by
  unfold process_packet_body
  rw [h, h2]
  rcases hsn : S.nodeErr (Wire.json r) with _ | e
  · rcases hl : nodeLogReads r with e2 | u
    · exact ⟨some e2, by simp [jsonDumps, hsn, hl, afterEffects]⟩
    · exact ⟨none, by simp [jsonDumps, hsn, hl, afterEffects]⟩
  · exact ⟨some e, by simp [jsonDumps, hsn]⟩

/-- Dispatcher body when the text normalizer raises: no write is issued
and the error reaches the except clause. -/
theorem body_text_error (S : StorageModel) (now : String)
    {packet : PyVal} {e : PyErr}
    (h : read_portnum packet = Except.ok (PyVal.pStr "TEXT_MESSAGE_APP"))
    (h2 : process_textmessage now packet = Except.error e) :
    process_packet_body S now packet = ([], some e) := by
  unfold process_packet_body
  rw [h]
  simp [h2]

/-- Dispatcher body when the text normalizer succeeds: exactly one
store_message write of the serialized record is issued. -/
theorem body_text_ok (S : StorageModel) (now : String)
    {packet r : PyVal}
    (h : read_portnum packet = Except.ok (PyVal.pStr "TEXT_MESSAGE_APP"))
    (h2 : process_textmessage now packet = Except.ok r) :
    ∃ err, process_packet_body S now packet =
      ([Effect.storeMessage (Wire.json r)], err) := by
  unfold process_packet_body
  rw [h, h2]
  rcases hsn : S.msgErr (Wire.json r) with _ | e
  · rcases hl : msgLogReads r with e2 | u
    · exact ⟨some e2, by simp [jsonDumps, hsn, hl, afterEffects]⟩
    · exact ⟨none, by simp [jsonDumps, hsn, hl, afterEffects]⟩
  · exact ⟨some e, by simp [jsonDumps, hsn]⟩

/-- process_packet returns exactly the effect trace of its body, the
except clause having swallowed any error. -/
theorem process_packet_eq (S : StorageModel) (now : String) (packet : PyVal)
    (packet_type : String) :
    process_packet S now packet packet_type =
      Except.ok (process_packet_body S now packet).1 := by
  unfold process_packet
  rcases h : process_packet_body S now packet with ⟨effs, err⟩
  cases err <;> rfl

/-- C2: on every execution path of process_packet, every record handed to
the storage collaborator (store_node or store_message) had
validate_typed_dict succeed on it first: a record on which validation
raised never reaches storage. -/
theorem stored_records_validated (S : StorageModel) (now : String)
    (packet : PyVal) (packet_type : String) (effs : List Effect) (e : Effect)
    (h : process_packet S now packet packet_type = Except.ok effs)
    (he : e ∈ effs) : effectValidated e = true := by
  rw [process_packet_eq] at h
  have heffs : effs = (process_packet_body S now packet).1 :=
    (Except.ok.inj h).symm
  subst heffs
  rcases hp : read_portnum packet with e0 | v
  · rw [body_portnum_error S now hp] at he
    simp at he
  · by_cases hv1 : v = PyVal.pStr "NODEINFO_APP"
    · subst hv1
      rcases hn : process_nodeinfo now packet with e1 | r
      · rw [body_node_error S now hp hn] at he
        simp at he
      · obtain ⟨err, hb⟩ := body_node_ok S now hp hn
        rw [hb] at he
        simp at he
        subst he
        simp only [effectValidated, decide_eq_true_eq]
        exact process_nodeinfo_ok_validated hn
    · by_cases hv2 : v = PyVal.pStr "TEXT_MESSAGE_APP"
      · subst hv2
        rcases hn : process_textmessage now packet with e1 | r
        · rw [body_text_error S now hp hn] at he
          simp at he
        · obtain ⟨err, hb⟩ := body_text_ok S now hp hn
          rw [hb] at he
          simp at he
          subst he
          simp only [effectValidated, decide_eq_true_eq]
          exact process_textmessage_ok_validated hn
      · rw [body_unknown S now hp hv1 hv2] at he
        simp at he

/-- Witness for C2: the node write issued for samplePacketNode carries a
record validated against the NodeInfo shape. -/
theorem stored_records_validated_witness :
    effectValidated (Effect.storeNode (Wire.json sampleNodeRecord)) = true :=
  stored_records_validated okStorage "T" samplePacketNode "node"
    [Effect.storeNode (Wire.json sampleNodeRecord)]
    (Effect.storeNode (Wire.json sampleNodeRecord))
    (by decide) (by decide)

/-- C5: when the decoded.user structure of a raw packet lacks the longName
key, the nodeinfo normalizer cannot return a record (the subscription
user_info of longName raises before the record literal completes, whatever
the other fields hold), and when such a packet reaches the dispatcher with
discriminator NODEINFO_APP, no storage write at all (neither store_node
nor store_message) is issued. -/
theorem missing_longname_no_store (now : String) (packet d : PyVal)
    (um : List (String × PyVal))
    (hd : pyGetItem packet "decoded" = Except.ok d)
    (hu : pyGetItem d "user" = Except.ok (PyVal.pDict um))
    (hln : lookupField um "longName" = none) :
    (∃ e, process_nodeinfo now packet = Except.error e) ∧
    (pyGetItem d "portnum" = Except.ok (PyVal.pStr "NODEINFO_APP") →
      ∀ (S : StorageModel) (packet_type : String),
        process_packet S now packet packet_type = Except.ok []) := by
  have hfail : ∃ e, process_nodeinfo now packet = Except.error e := by
    rcases hn : process_nodeinfo now packet with e | r
    · exact ⟨e, rfl⟩
    · exfalso
      unfold process_nodeinfo at hn
      simp only [bind_ok_iff] at hn
      obtain ⟨c, hb, hrest⟩ := hn
      unfold build_nodeinfo at hb
      simp only [bind_ok_iff, pure_ok_iff] at hb
      obtain ⟨d1, hd1, u1, hu1, ui, hui, _, _, _, _, _, _, _, _, lnv, hlnv, _⟩ := hb
      have hdd : d1 = d := Except.ok.inj (hd1.symm.trans hd)
      subst hdd
      have huu : u1 = PyVal.pDict um := Except.ok.inj (hu1.symm.trans hu)
      subst huu
      simp only [pyToDict, Except.ok.injEq] at hui
      subst hui
      simp [pyGetItem, hln] at hlnv
  refine ⟨hfail, ?_⟩
  intro hport S packet_type
  obtain ⟨e, hn⟩ := hfail
  have hrp : read_portnum packet = Except.ok (PyVal.pStr "NODEINFO_APP") := by
    unfold read_portnum
    rw [hd]
    simpa [Bind.bind, Except.bind] using hport
  rw [process_packet_eq, body_node_error S now hrp hn]

/-- Witness for C5 at a concrete packet lacking decoded.user.longName: the
normalizer raises and the dispatcher issues no write. -/
theorem missing_longname_no_store_witness :
    (∃ e, process_nodeinfo "T" samplePacketNoLong = Except.error e) ∧
    process_packet okStorage "T" samplePacketNoLong "node" = Except.ok [] :=
  have h := missing_longname_no_store "T" samplePacketNoLong
    (.pDict [("portnum", .pStr "NODEINFO_APP"),
             ("user", .pDict [("id", .pStr "!a1")])])
    [("id", .pStr "!a1")] (by decide) (by decide) (by decide)
  ⟨h.1, h.2 (by decide) okStorage "node"⟩

/-- C6: when the decoded.portnum discriminator of a raw packet is neither
NODEINFO_APP nor TEXT_MESSAGE_APP, process_packet issues no storage write
at all and raises no exception: it returns normally with an empty effect
trace (the unknown type is only logged). -/
theorem unknown_portnum_no_store (now : String) (packet v : PyVal)
    (S : StorageModel) (packet_type : String)
    (h : read_portnum packet = Except.ok v)
    (h1 : v ≠ PyVal.pStr "NODEINFO_APP")
    (h2 : v ≠ PyVal.pStr "TEXT_MESSAGE_APP") :
    process_packet S now packet packet_type = Except.ok [] := by
  rw [process_packet_eq, body_unknown S now h h1 h2]

/-- Witness for C6: processing the WAYPOINT_APP packet issues no write and
returns normally. -/
theorem unknown_portnum_no_store_witness :
    process_packet okStorage "T" samplePacketWaypoint "x" = Except.ok [] :=
  unknown_portnum_no_store "T" samplePacketWaypoint (.pStr "WAYPOINT_APP")
    okStorage "x" (by decide) (by decide) (by decide)

/-- C4: a raw packet lacking the rxSnr and rxRssi keys that the text
normalizer successfully turns into a record gets embedded metrics with
rx_snr equal to the float 0 and rx_rssi equal to the int 0 (the .get
defaults 0 coerced by float and int), and the nodeinfo normalizer applies
the same default-to-zero policy — unlike extract_metrics, which leaves
the fields absent. -/
theorem embedded_metrics_default_zero (now : String)
    (m : List (String × PyVal)) (r : PyVal)
    (h1 : lookupField m "rxSnr" = none)
    (h2 : lookupField m "rxRssi" = none) :
    (process_textmessage now (PyVal.pDict m) = Except.ok r →
      ∃ mets, pyGetItem r "metrics" = Except.ok (PyVal.pDict mets) ∧
        lookupField mets "rx_snr" = some (PyVal.pFloat 0) ∧
        lookupField mets "rx_rssi" = some (PyVal.pInt 0)) ∧
    (process_nodeinfo now (PyVal.pDict m) = Except.ok r →
      ∃ mets, pyGetItem r "metrics" = Except.ok (PyVal.pDict mets) ∧
        lookupField mets "rx_snr" = some (PyVal.pFloat 0) ∧
        lookupField mets "rx_rssi" = some (PyVal.pInt 0)) := by
  constructor
  · intro h
    unfold process_textmessage at h
    simp only [bind_ok_iff] at h
    obtain ⟨c, hb, hv⟩ := h
    simp only [bind_ok_iff, pure_ok_iff] at hv
    obtain ⟨u, hval, hcr⟩ := hv
    subst hcr
    unfold build_textmessage at hb
    simp only [bind_ok_iff, pure_ok_iff] at hb
    obtain ⟨_, _, _, _, _, _, _, _, _, _, _, _, _, _, _, _, _, _, _, _,
      sv, hsv, sq, hsq, rv, hrv, ri, hri, _, _, _, _, _, _, hlit⟩ := hb
    simp only [pyDictGet, h1, Except.ok.injEq] at hsv
    subst hsv
    simp only [pyFloat, Int.cast_zero, Except.ok.injEq] at hsq
    subst hsq
    simp only [pyDictGet, h2, Except.ok.injEq] at hrv
    subst hrv
    simp only [pyInt, Except.ok.injEq] at hri
    subst hri
    subst hlit
    exact ⟨_, rfl, rfl, rfl⟩
  · intro h
    unfold process_nodeinfo at h
    simp only [bind_ok_iff] at h
    obtain ⟨c, hb, hv⟩ := h
    simp only [bind_ok_iff, pure_ok_iff] at hv
    obtain ⟨u, hval, hcr⟩ := hv
    subst hcr
    unfold build_nodeinfo at hb
    simp only [bind_ok_iff, pure_ok_iff] at hb
    obtain ⟨_, _, _, _, _, _, _, _, _, _, _, _, _, _, _, _, _, _, _, _,
      _, _, _, _, _, _, _, _,
      sv, hsv, sq, hsq, rv, hrv, ri, hri, _, _, _, _, _, _, hlit⟩ := hb
    simp only [pyDictGet, h1, Except.ok.injEq] at hsv
    subst hsv
    simp only [pyFloat, Int.cast_zero, Except.ok.injEq] at hsq
    subst hsq
    simp only [pyDictGet, h2, Except.ok.injEq] at hrv
    subst hrv
    simp only [pyInt, Except.ok.injEq] at hri
    subst hri
    subst hlit
    exact ⟨_, rfl, rfl, rfl⟩

/-- Witness for C4 at samplePacketText, which lacks rxSnr and rxRssi: the
built record carries rx_snr 0.0 and rx_rssi 0. -/
theorem embedded_metrics_default_zero_witness :
    ∃ mets, pyGetItem sampleTextRecord "metrics" =
        Except.ok (PyVal.pDict mets) ∧
      lookupField mets "rx_snr" = some (PyVal.pFloat 0) ∧
      lookupField mets "rx_rssi" = some (PyVal.pInt 0) :=
  (embedded_metrics_default_zero "T"
    [("from", .pInt 1), ("fromId", .pStr "!a1"), ("to", .pInt 2),
     ("toId", .pStr "!b2"), ("rxTime", .pInt 100), ("raw", .pStr "rawmsg"),
     ("decoded", .pDict
       [("portnum", .pStr "TEXT_MESSAGE_APP"), ("text", .pStr "hi")])]
    sampleTextRecord (by decide) (by decide)).1 (by decide)

/-- Counterexample to C7 as stated: on a packet whose fromId is the
integer 5 the text normalizer succeeds, but the displayed from field is
the string 5 produced by str(), which does not equal the packet fromId
value 5, so the projection does not return from equal to p.fromId. -/
theorem display_roundtrip_counterexample :
    pyGetItem samplePacketTextIntId "fromId" = Except.ok (PyVal.pInt 5) ∧
    process_textmessage "T" samplePacketTextIntId =
      Except.ok sampleTextRecordIntId ∧
    format_message_for_display (jsonDumps sampleTextRecordIntId) =
      Except.ok (some (PyVal.pDict
        [("timestamp", .pStr "T"), ("from", .pStr "5"),
         ("to", .pStr "!b2"), ("text", .pStr "hi")])) ∧
    (PyVal.pStr "5" = PyVal.pInt 5) = False :=
  ⟨by decide, by decide, by decide, eq_false (by decide)⟩

/-- C7 amended: on every raw packet the text normalizer accepts, the
display formatter applied to the serialized record returns the projection
whose timestamp is the record timestamp (the normalization time), whose
from field is str(p.fromId), whose to field is str(p.toId), and whose text
field is str(p.decoded.text) — which coincide with p.fromId, p.toId and
p.decoded.text exactly when those raw values are already strings. -/
theorem display_roundtrip_str (now : String) (packet r vf vt d vx : PyVal)
    (hp : process_textmessage now packet = Except.ok r)
    (hf : pyGetItem packet "fromId" = Except.ok vf)
    (ht : pyGetItem packet "toId" = Except.ok vt)
    (hd : pyGetItem packet "decoded" = Except.ok d)
    (hx : pyGetItem d "text" = Except.ok vx) :
    format_message_for_display (jsonDumps r) = Except.ok (some (PyVal.pDict
      [("timestamp", .pStr now), ("from", .pStr (pyStr vf)),
       ("to", .pStr (pyStr vt)), ("text", .pStr (pyStr vx))])) := by
  unfold process_textmessage at hp
  simp only [bind_ok_iff] at hp
  obtain ⟨c, hb, hv⟩ := hp
  simp only [bind_ok_iff, pure_ok_iff] at hv
  obtain ⟨u, hval, hcr⟩ := hv
  subst hcr
  unfold build_textmessage at hb
  simp only [bind_ok_iff, pure_ok_iff] at hb
  obtain ⟨_, _, _, _, v3, h3b, _, _, _, _, v6, h6b, v7, h7b, v8, h8b,
    _, _, _, _, _, _, _, _, _, _, _, _, _, _, _, _, _, _, hlit⟩ := hb
  have e3 : v3 = vf := Except.ok.inj (h3b.symm.trans hf)
  subst e3
  have e6 : v6 = vt := Except.ok.inj (h6b.symm.trans ht)
  subst e6
  have e7 : v7 = d := Except.ok.inj (h7b.symm.trans hd)
  subst e7
  have e8 : v8 = vx := Except.ok.inj (h8b.symm.trans hx)
  subst e8
  subst hlit
  rfl

/-- Witness for the amended C7 at samplePacketText, whose ids and text are
strings: the projection returns them unchanged together with the record
timestamp. -/
theorem display_roundtrip_str_witness :
    format_message_for_display (jsonDumps sampleTextRecord) =
      Except.ok (some (PyVal.pDict
        [("timestamp", .pStr "T"), ("from", .pStr "!a1"),
         ("to", .pStr "!b2"), ("text", .pStr "hi")])) :=
  display_roundtrip_str "T" samplePacketText sampleTextRecord
    (.pStr "!a1") (.pStr "!b2")
    (.pDict [("portnum", .pStr "TEXT_MESSAGE_APP"), ("text", .pStr "hi")])
    (.pStr "hi")
    (by decide) (by decide) (by decide) (by decide) (by decide)

/-- A .get on a dict never raises: it yields the bound value or the
default. -/
theorem pyDictGet_eq (m : List (String × PyVal)) (k : String) (d : PyVal) :
    pyDictGet (.pDict m) k d = .ok ((lookupField m k).getD d) := by
  rcases h : lookupField m k with _ | x <;> simp [pyDictGet, h]

/-- Counterexample to C8 as stated: extract_metrics copies the rxTime
value into rx_time verbatim, so on a packet whose rxTime is the string
100 the resulting Metrics record still holds the string 100 in its
numeric rx_time slot — no string-to-number conversion was attempted, and
the value is not of the declared int kind. -/
theorem extract_metrics_no_coercion_counterexample :
    extract_metrics (.pDict [("rxTime", .pStr "100")]) = Except.ok (.pDict
      [("rx_time", .pStr "100"), ("rx_snr", .pNone), ("rx_rssi", .pNone),
       ("hop_limit", .pInt 3)]) ∧
    validateTy .tInt (.pStr "100") = false :=
  ⟨by decide, by decide⟩

/-- C8 amended: in the per-type normalizers numeric coercion is lenient —
a numeric-targeted field present as a string is converted by int or float
before being placed in the record (shown for from_num in the text
normalizer and, concretely, for the telemetry device metrics) — and a
missing required field raises immediately; extract_metrics, however,
places the looked-up rxTime value in the record verbatim, attempting no
conversion. -/
theorem lenient_coercion_normalizers :
    (∀ (now : String) (m : List (String × PyVal)) (s : String) (n : Int)
       (r : PyVal),
      lookupField m "from" = some (PyVal.pStr s) →
      parseIntStr s = some n →
      process_textmessage now (PyVal.pDict m) = Except.ok r →
      pyGetItem r "from_num" = Except.ok (PyVal.pInt n)) ∧
    (∀ (now : String) (m : List (String × PyVal)),
      lookupField m "from" = none →
      process_textmessage now (PyVal.pDict m) =
        Except.error (PyErr.keyError "from")) ∧
    (∀ (m : List (String × PyVal)) (v : PyVal),
      lookupField m "rxTime" = some v →
      ∃ rec, extract_metrics (PyVal.pDict m) = Except.ok rec ∧
        pyGetItem rec "rx_time" = Except.ok v) ∧
    process_device_telemetry "T" samplePacketTelemetry =
      Except.ok sampleTelemetryRecord := by
  refine ⟨?_, ?_, ?_, by decide⟩
  · intro now m s n r hm hparse h
    unfold process_textmessage at h
    simp only [bind_ok_iff] at h
    obtain ⟨c, hb, hv⟩ := h
    simp only [bind_ok_iff, pure_ok_iff] at hv
    obtain ⟨u, hval, hcr⟩ := hv
    subst hcr
    unfold build_textmessage at hb
    simp only [bind_ok_iff, pure_ok_iff] at hb
    obtain ⟨v1, h1b, v2, h2b, _, _, _, _, _, _, _, _, _, _, _, _, _, _,
      _, _, _, _, _, _, _, _, _, _, _, _, _, _, _, _, hlit⟩ := hb
    simp only [pyGetItem, hm, Except.ok.injEq] at h1b
    subst h1b
    simp only [pyInt] at h2b
    rw [hparse] at h2b
    have e2 : v2 = n := (Except.ok.inj h2b).symm
    subst e2
    subst hlit
    rfl
  · intro now m h
    simp [process_textmessage, build_textmessage, pyGetItem, h,
      Bind.bind, Except.bind]
  · intro m v h
    refine ⟨.pDict
      [("rx_time", v),
       ("rx_snr", (lookupField m "rxSnr").getD .pNone),
       ("rx_rssi", (lookupField m "rxRssi").getD .pNone),
       ("hop_limit", (lookupField m "hopLimit").getD (.pInt 3))],
      ?_, rfl⟩
    unfold extract_metrics
    simp [pyGetItem, h, pyDictGet_eq, Bind.bind, Except.bind]

/-- Witness for the amended C8: the string from 5 is coerced to the int 5
by the text normalizer, the empty packet raises a KeyError for from, and
extract_metrics on a string rxTime keeps the string verbatim. -/
theorem lenient_coercion_normalizers_witness :
    pyGetItem sampleTextRecordStrFrom "from_num" =
      Except.ok (PyVal.pInt 5) ∧
    process_textmessage "T" (PyVal.pDict []) =
      Except.error (PyErr.keyError "from") ∧
    (∃ rec, extract_metrics (PyVal.pDict [("rxTime", PyVal.pStr "100")]) =
        Except.ok rec ∧
      pyGetItem rec "rx_time" = Except.ok (PyVal.pStr "100")) :=
  ⟨lenient_coercion_normalizers.1 "T"
    [("from", .pStr "5"), ("fromId", .pStr "!a1"), ("to", .pInt 2),
     ("toId", .pStr "!b2"), ("rxTime", .pInt 100), ("raw", .pStr "rawmsg"),
     ("decoded", .pDict
       [("portnum", .pStr "TEXT_MESSAGE_APP"), ("text", .pStr "hi")])]
    "5" 5 sampleTextRecordStrFrom (by decide) (by decide) (by decide),
   lenient_coercion_normalizers.2.1 "T" [] rfl,
   lenient_coercion_normalizers.2.2.1 [("rxTime", PyVal.pStr "100")]
     (PyVal.pStr "100") rfl⟩
